import Mathlib

/-!
Shallow embedding of the two source files of this repository:

* `final/campaign/__main__.py` — the uplift-campaign command-line tool with its
  three tasks `featurize`, `train` and `inference`, plus the `_init` setup that
  registers the source tables on the engine;
* `recsys/lesson5/config.py` — the recommender configuration, in particular
  `score_wrapper`, the scoring callback handed to the Optuna searchers.

Dataframes are lists of indexed rows of optional rationals (a missing cell is
`none`), files are named by path strings, and each task additionally returns
the ordered list of observable effects (reads, the seeded sample and split,
pipeline assembly, fit, score, writes) so ordering and format claims can be
stated.  Library-provided computations that are not part of this repository
(the sklearn estimators, `compute_features`, `uplift_at_k`, `np.histogram`,
`ndcg_score`) are taken as parameters.  Floating-point arithmetic is idealised
as exact rational arithmetic.
-/

/-- Formats of the files the campaign tasks read and write. -/
inductive Fmt where
  | csv
  | parquet
  | pickle
deriving DecidableEq

/-- Observable events of a campaign task, in program order: file reads, the
seeded sample, pipeline assembly, the seeded train/test split, fitting,
scoring (prediction and metric computation), and file writes. -/
inductive Eff where
  | read (path : String) (fmt : Fmt)
  | sample (seed : Nat)
  | assemble
  | split (seed : Nat)
  | fit
  | score
  | write (path : String) (fmt : Fmt)
deriving DecidableEq

/-- The writes recorded in an effect list, with their formats. -/
def writesOf (effs : List Eff) : List (String × Fmt) :=
  effs.filterMap (fun e =>
    match e with
    | Eff.write p f => some (p, f)
    | _ => none)

/-- Embedding of `os.path.join` for the relative paths the tool builds. -/
def osPathJoin (a b : String) : String := a ++ "/" ++ b

/-- Embedding of a dask/pandas dataframe: ordered column labels and rows,
each row carrying its index and one optional value per column. -/
structure DF where
  cols : List String
  rows : List (Nat × List (Option ℚ))
deriving DecidableEq

/-- Value of a labelled cell in a row: the entry of `vals` at the position of
label `c` in `cols` (`none` when the label is absent or the cell is missing). -/
def cellLookup (cols : List String) (vals : List (Option ℚ)) (c : String) : Option ℚ :=
  (vals.get? (cols.indexOf c)).join

/-- A named column of a dataframe, as a series of optional values. -/
def dfCol (df : DF) (c : String) : List (Option ℚ) :=
  df.rows.map (fun r => cellLookup df.cols r.2 c)

/-- Embedding of `Series.fillna`: replace missing values by `v`. -/
def fillna (xs : List (Option ℚ)) (v : ℚ) : List ℚ :=
  xs.map (fun x => x.getD v)

/-- Pointwise difference of two series. -/
def seriesSub (a b : List ℚ) : List ℚ :=
  List.zipWith (fun x y => x - y) a b

/-- Scalar multiple of a series. -/
def seriesSmul (c : ℚ) (a : List ℚ) : List ℚ :=
  a.map (fun x => c * x)

/-- Embedding of `df[df.columns[3:]]` / `df.loc[:, df.columns[3:]]`: keep all
columns from the fourth one on.  The source selects the trailing column labels;
the embedding selects positionally, column labels being assumed distinct. -/
def dfTail3 (df : DF) : DF :=
  { cols := df.cols.drop 3
    rows := df.rows.map (fun r => (r.1, r.2.drop 3)) }

/-- Embedding of Python `int(q)` on a number: truncation toward zero. -/
def pyInt (q : ℚ) : Int :=
  if 0 ≤ q then ⌊q⌋ else ⌈q⌉

/-- Embedding of a Python slice `l[:n]` with a possibly negative `n`: a
non-negative `n` keeps the first `n` elements, a negative `n` drops the last
`-n`. -/
def pySlice {α : Type} (l : List α) (n : Int) : List α :=
  if 0 ≤ n then l.take n.toNat else l.take ((l.length : Int) + n).toNat

/-- Insert an element into a list sorted by key `f` in descending order,
before the first element of strictly smaller key. -/
def insertDescBy {α : Type} (f : α → ℚ) (a : α) : List α → List α
  | [] => [a]
  | b :: t => if f b < f a then a :: b :: t else b :: insertDescBy f a t

/-- Embedding of `sort_values(key, ascending=False)`: insertion sort by key
`f` in descending order. -/
def sortDescBy {α : Type} (f : α → ℚ) : List α → List α
  | [] => []
  | a :: t => insertDescBy f a (sortDescBy f t)

/-- The module constant `_random_state` of `campaign/__main__.py`. -/
def _random_state : Nat := 110894

/-- Deterministic seeded row choice backing the models of `sample` and
`train_test_split`: whether position `i` is chosen at rate `frac` under
`seed`. -/
def detKeep (seed i : Nat) (frac : ℚ) : Bool :=
  decide ((((i + seed) % 97 : Nat) : ℚ) < frac * 97)

/-- Model of `DataFrame.sample(frac=..., random_state=...)`: a deterministic
subset of the rows keyed on the effective seed.  The seed is the passed
`random_state` when there is one, and the ambient entropy otherwise, so a call
with an explicit `random_state` never consumes entropy. -/
def pySample {α : Type} (random_state : Option Nat) (entropy : Nat) (frac : ℚ)
    (rows : List α) : List α :=
  let seed := random_state.getD entropy
  ((rows.enum).filter (fun p => detKeep seed p.1 frac)).map (fun p => p.2)

/-- Model of the test mask of `train_test_split(..., test_size=...,
random_state=..., stratify=w)`: position `i` goes to the test side iff
`detKeep` chooses it at rate `test_size` under the effective seed.  The seed is
the passed `random_state` when there is one, and the ambient entropy otherwise;
stratification only rearranges which rows are chosen and is not modelled
further. -/
def pySplitMask (random_state : Option Nat) (entropy : Nat) (test_size : ℚ)
    (w : List ℚ) : List Bool :=
  let seed := random_state.getD entropy
  (w.enum).map (fun p => detKeep (seed + 1) p.1 test_size)

/-- Rows of `xs` selected by the side `b` of a test mask. -/
def maskSel {α : Type} (mask : List Bool) (b : Bool) (xs : List α) : List α :=
  ((mask.zip xs).filter (fun p => p.1 == b)).map (fun p => p.2)

/-- Embedding of `np.arange(start, stop, step)` for a positive step. -/
def arangeQ (start stop step : ℚ) : List ℚ :=
  if 0 < step then
    (List.range (⌈(stop - start) / step⌉).toNat).map (fun i => start + i * step)
  else []

/-- A registered source table: the file it is read from. -/
inductive Source where
  | csv (path : String)
  | parquet (path : String)
deriving DecidableEq

/-- Embedding of the table registry of `campaign/source.py`.  Modelled from
the spec: the `Engine` class itself is not among the sources; per the spec it
holds "the registered source tables", so it is a list of named sources. -/
structure Engine where
  tables : List (String × Source)
deriving DecidableEq

/-- Embedding of `Engine.registerTable`: record one more named source. -/
def Engine.registerTable (e : Engine) (name : String) (src : Source) : Engine :=
  { tables := e.tables ++ [(name, src)] }

/-- Result of `_init`: the four work subdirectory paths, the directories it
creates, and the engine with the registered tables. -/
structure InitOut where
  datapath : String
  metricspath : String
  artifactspath : String
  submitspath : String
  mkdirs : List String
  engine : Engine
deriving DecidableEq

/-- Embedding of `_init(workpath)`: set the four paths, create the artifacts,
metrics and submits directories, and register the `campaigns`, `customers` and
`receipts` tables on the engine. -/
def initRun (workpath : String) : InitOut :=
  let datapath := osPathJoin workpath "data"
  let metricspath := osPathJoin workpath "metrics"
  let artifactspath := osPathJoin workpath "artifacts"
  let submitspath := osPathJoin workpath "submits"
  let engine :=
    (((Engine.mk []).registerTable "campaigns"
        (Source.csv (osPathJoin datapath "campaigns.csv"))).registerTable "customers"
        (Source.csv (osPathJoin datapath "customers.csv"))).registerTable "receipts"
        (Source.parquet (osPathJoin datapath "receipts.parquet"))
  { datapath := datapath
    metricspath := metricspath
    artifactspath := artifactspath
    submitspath := submitspath
    mkdirs := [artifactspath, metricspath, submitspath]
    engine := engine }

/-- Configuration consumed by the featurise task: the names of the calcers to
run, plus whatever other keys the yaml config carries. -/
structure FeatConfig where
  calcers : List String
  extra : List (String × String)
deriving DecidableEq

/-- Result of the featurise task: the computed features and the effects. -/
structure FeatOut where
  features : DF
  effects : List Eff
deriving DecidableEq

/-- Embedding of `featurize(name, config)`: compute the features with the
configured calcers over the engine and write them to
`data/{name}_features.parquet`.  `compute_features` itself lives in
`campaign/featurise.py`, which is not among the sources, so it is a
parameter. -/
def featurizeRun (compute_features : List String → Engine → DF)
    (workpath name : String) (config : FeatConfig) (eng : Engine) : FeatOut :=
  let datapath := osPathJoin workpath "data"
  let features_dd := compute_features config.calcers eng
  { features := features_dd
    effects := [Eff.write (osPathJoin datapath (name ++ "_features.parquet")) Fmt.parquet] }

/-- Series `w` of the train task: `target_group_flag` with missing values
replaced by `0`. -/
def trainW (df : DF) : List ℚ :=
  fillna (dfCol df "target_group_flag") 0

/-- Series `y` of the train task:
`28 * target_purchase_amt.fillna(0) - target_discount_sum.fillna(0)
 - 1 * target_group_flag.fillna(0)`. -/
def trainY (df : DF) : List ℚ :=
  seriesSub
    (seriesSub (seriesSmul 28 (fillna (dfCol df "target_purchase_amt") 0))
      (fillna (dfCol df "target_discount_sum") 0))
    (seriesSmul 1 (fillna (dfCol df "target_group_flag") 0))

/-- Feature matrix `X` of the train task: all columns from the fourth on. -/
def trainX (df : DF) : DF := dfTail3 df

/-- Configuration consumed by the train task, flattening the nested
`validation` and `evaluation` sections of the yaml config. -/
structure TrainConfig where
  sample_frac : ℚ
  transformers : List String
  selectors : List String
  model : String
  test_size : ℚ
  bin_count : Nat
  cutoff_step : ℚ
deriving DecidableEq

/-- Library computations the train task delegates to: `build_pipeline` from
`campaign/estimators.py`, the sklearn fit/predict of the assembled pipeline,
`np.histogram`, and `uplift_at_k` from `campaign/metrics.py` — none of which
is among the sources. -/
structure TrainPrims (Stage Model : Type) where
  build_pipeline : List String → Stage
  fit : Stage → Stage → Stage → List (List (Option ℚ)) → List ℚ → List ℚ → Model
  predict : Model → List (List (Option ℚ)) → List ℚ
  histogram : List ℚ → Nat → List Nat × List ℚ
  uplift_at_k : List ℚ → List ℚ → List ℚ → ℚ → ℚ

/-- Everything the train task computes, plus its effect log. -/
structure TrainOut (Model : Type) where
  features_df : DF
  X : DF
  w : List ℚ
  y : List ℚ
  mask : List Bool
  model : Model
  uplift : List ℚ
  hist : List Nat × List ℚ
  cutoffs : List ℚ
  metrics : List ℚ
  uplift_full : List ℚ
  effects : List Eff

/-- Embedding of `train(name, config)`: read the features, sample them with
the fixed `_random_state`, build `X`, `w` and `y`, assemble the
transform/select/model pipeline, split with the fixed `_random_state`, fit on
the train side, pickle the fitted pipeline, predict on the test side, compute
the uplift histogram and the `uplift_at_k` metrics over the cutoff grid,
predict on all of `X` for the example table, and write the three metric
tables as CSV. -/
def trainRun {Stage Model : Type} (P : TrainPrims Stage Model) (entropy : Nat)
    (workpath name : String) (config : TrainConfig) (features_dd : DF) :
    TrainOut Model :=
  let datapath := osPathJoin workpath "data"
  let metricspath := osPathJoin workpath "metrics"
  let artifactspath := osPathJoin workpath "artifacts"
  let sampled := pySample (some _random_state) entropy config.sample_frac features_dd.rows
  let features_df : DF := { cols := features_dd.cols, rows := sampled }
  let X := trainX features_df
  let w := trainW features_df
  let y := trainY features_df
  let transform := P.build_pipeline config.transformers
  let select := P.build_pipeline config.selectors
  let model0 := P.build_pipeline [config.model]
  let mask := pySplitMask (some _random_state) entropy config.test_size w
  let xrows := X.rows.map (fun r => r.2)
  let X_train := maskSel mask false xrows
  let X_test := maskSel mask true xrows
  let y_train := maskSel mask false y
  let w_train := maskSel mask false w
  let model := P.fit transform select model0 X_train y_train w_train
  let uplift := P.predict model X_test
  let hist := P.histogram uplift config.bin_count
  let cutoffs := arangeQ config.cutoff_step 1 config.cutoff_step
  let metrics := cutoffs.map (fun k => P.uplift_at_k uplift w y k)
  let uplift_full := P.predict model xrows
  { features_df := features_df
    X := X
    w := w
    y := y
    mask := mask
    model := model
    uplift := uplift
    hist := hist
    cutoffs := cutoffs
    metrics := metrics
    uplift_full := uplift_full
    effects := [Eff.read (osPathJoin datapath (name ++ "_features.parquet")) Fmt.parquet,
                Eff.sample _random_state,
                Eff.assemble,
                Eff.split _random_state,
                Eff.fit,
                Eff.write (osPathJoin artifactspath (name ++ "_pipeline.pkl")) Fmt.pickle,
                Eff.score,
                Eff.write (osPathJoin metricspath (name ++ "_hist.csv")) Fmt.csv,
                Eff.write (osPathJoin metricspath (name ++ "_metrics.csv")) Fmt.csv,
                Eff.write (osPathJoin metricspath (name ++ "_examples.csv")) Fmt.csv] }

/-- The cutoff selection of the inference task: pair the rows with their
uplift, keep the rows of strictly positive uplift, sort by uplift descending,
and slice the first `int(N * cutoff)` indices where `N` counts the sorted
rows. -/
def cutoffSelect (rows : List (Nat × List (Option ℚ))) (uplift : List ℚ)
    (cutoff : ℚ) : List Nat :=
  let withU := rows.zip uplift
  let kept := withU.filter (fun p => decide ((0 : ℚ) < p.2))
  let sorted := sortDescBy (fun p => p.2) kept
  let N := sorted.length
  let n := pyInt ((N : ℚ) * cutoff)
  pySlice (sorted.map (fun p => p.1.1)) n

/-- Result of the inference task: the customer indices written to the submit
file, and the effects. -/
structure InferOut where
  submit : List Nat
  effects : List Eff
deriving DecidableEq

/-- Embedding of `inference(name, config)`: read the features, keep the
columns from the fourth on, load the pickled pipeline (its row-wise
prediction is the parameter `pred`), predict the uplift, apply the cutoff
selection, and write the selected customer indices to
`submits/{name}_submit.csv`. -/
def inferenceRun (pred : List (Option ℚ) → ℚ) (workpath name : String)
    (cutoff : ℚ) (features_dd : DF) : InferOut :=
  let datapath := osPathJoin workpath "data"
  let artifactspath := osPathJoin workpath "artifacts"
  let submitspath := osPathJoin workpath "submits"
  let dd := dfTail3 features_dd
  let uplift := dd.rows.map (fun r => pred r.2)
  { submit := cutoffSelect dd.rows uplift cutoff
    effects := [Eff.read (osPathJoin datapath (name ++ "_features.parquet")) Fmt.parquet,
                Eff.read (osPathJoin artifactspath (name ++ "_pipeline.pkl")) Fmt.pickle,
                Eff.score,
                Eff.write (osPathJoin submitspath (name ++ "_submit.csv")) Fmt.csv] }

/-- Statement of claim C1 in its own words: pair every row with its predicted
uplift, keep the rows whose uplift is strictly greater than `0`, sort the kept
rows by uplift in descending order, and take the first `floor(N * cutoff)`
customer indices, `N` being the number of kept rows. -/
def inferenceClaim (pred : List (Option ℚ) → ℚ) (features_dd : DF)
    (cutoff : ℚ) : List Nat :=
  let scored := (dfTail3 features_dd).rows.map (fun r => (r.1, pred r.2))
  let kept := scored.filter (fun p => decide ((0 : ℚ) < p.2))
  let sorted := sortDescBy (fun p => p.2) kept
  (sorted.map (fun p => p.1)).take (Int.toNat ⌊(kept.length : ℚ) * cutoff⌋)

/-- Insert a number into an ascending list. -/
def insertAscNat (a : Nat) : List Nat → List Nat
  | [] => [a]
  | b :: t => if a ≤ b then a :: b :: t else b :: insertAscNat a t

/-- Ascending insertion sort on numbers. -/
def sortAscNat : List Nat → List Nat
  | [] => []
  | a :: t => insertAscNat a (sortAscNat t)

/-- The distinct user ids of an interactions array, in ascending order, as
`pandas.groupby` (with its default key sorting) enumerates the groups. -/
def groupKeys (X : List (Nat × Nat)) : List Nat :=
  sortAscNat ((X.map (fun r => r.1)).dedup)

/-- The items of user `u` in an interactions array, in order of appearance. -/
def itemsOf (X : List (Nat × Nat)) (u : Nat) : List Nat :=
  (X.filter (fun r => r.1 == u)).map (fun r => r.2)

/-- Embedding of the `y_true` construction of `score_wrapper`: group the item
column of `X` into one list per user id. -/
def groupTruth (X : List (Nat × Nat)) : List (List Nat) :=
  (groupKeys X).map (itemsOf X)

/-- An estimator as `score_wrapper` sees it: whether it is a sklearn
`Pipeline`, and its top-k prediction method.  Interactions are (user id,
item id) pairs. -/
structure RecEstimator where
  is_pipeline : Bool
  predict : List (Nat × Nat) → Nat → List (List Nat)

/-- Embedding of `score_wrapper(estimator, X)` from `recsys/lesson5/config.py`:
for a `Pipeline` estimator, the NDCG score of the estimator's top-`at_k`
predictions on `X` against the per-user ground truth grouped from `X`;
otherwise a `ValueError` carrying the estimator.  `ndcg_score` lives in
`utils/validation/metrics.py`, which is not among the sources, so it is a
parameter; `at_k` stands for `constants.AT_K`. -/
def scoreWrapper (ndcg_score : List (List Nat) → List (List Nat) → Nat → ℚ)
    (at_k : Nat) (estimator : RecEstimator) (X : List (Nat × Nat)) :
    Except RecEstimator ℚ :=
  if estimator.is_pipeline then
    Except.ok (ndcg_score (groupTruth X) (estimator.predict X at_k) at_k)
  else
    Except.error estimator

/-- Exception-aware embedding of `featurize`, for the failure-handling claim:
the two library calls may fail, and the task body contains no handler of its
own. -/
def featurizeE {E DFT : Type} (compute_features : Except E DFT)
    (to_parquet : DFT → Except E Unit) : Except E Unit := do
  let features_dd ← compute_features
  to_parquet features_dd

/-- Exception-aware embedding of `inference`, for the failure-handling claim:
reading the features, unpickling the pipeline, predicting and writing the
submit file may fail; the cutoff selection in between is pure and the task
body contains no handler of its own. -/
def inferenceE {E M : Type} (read_parquet : Except E DF) (load : Except E M)
    (predictE : M → DF → Except E (List ℚ)) (to_csv : List Nat → Except E Unit)
    (cutoff : ℚ) : Except E Unit := do
  let features_dd ← read_parquet
  let p ← load
  let d := dfTail3 features_dd
  let uplift ← predictE p d
  to_csv (cutoffSelect d.rows uplift cutoff)

/-- Exception-aware embedding of the metric comprehension of `train`
(`[uplift_at_k(...) for k in cutoffs]`), for the failure-handling claim: the
comprehension evaluates left to right and aborts at the first failing call. -/
def metricsE {E : Type} (uplift_at_k : ℚ → Except E ℚ) : List ℚ → Except E (List ℚ)
  | [] => Except.ok []
  | k :: ks => do
      let m ← uplift_at_k k
      let ms ← metricsE uplift_at_k ks
      Except.ok (m :: ms)

/-- Concrete library primitives for evaluating the train task on examples. -/
def exPrims : TrainPrims Unit Unit :=
  { build_pipeline := fun _ => ()
    fit := fun _ _ _ _ _ _ => ()
    predict := fun _ rs => rs.map (fun _ => 0)
    histogram := fun _ _ => ([], [])
    uplift_at_k := fun _ _ _ _ => 0 }

/-- Concrete train configuration for examples. -/
def exTrainCfg : TrainConfig :=
  { sample_frac := 1
    transformers := ["standardize"]
    selectors := ["select_all"]
    model := "uplift_model"
    test_size := 1/2
    bin_count := 2
    cutoff_step := 1/4 }

/-- Concrete features table for examples, with the target columns and one
missing cell per row. -/
def exFeatDF : DF :=
  { cols := ["customer_id", "campaign_id", "target_group_flag",
             "target_purchase_amt", "target_discount_sum", "f1"]
    rows := [(0, [some 0, some 1, some 1, some 10, none, some 2]),
             (1, [some 1, some 1, none, none, some 3, some 4])] }

/-- The first row of `exFeatDF`. -/
def exRow0 : Nat × List (Option ℚ) := (0, [some 0, some 1, some 1, some 10, none, some 2])

/-- Concrete calcer-driven feature computation for examples, sensitive to both
the calcer list and the engine. -/
def exCF : List String → Engine → DF :=
  fun cs eng => { cols := cs, rows := [(eng.tables.length, [])] }

/-- Concrete featurise configuration, with a non-calcer key. -/
def exFc1 : FeatConfig := { calcers := ["age"], extra := [("k", "v")] }

/-- Concrete featurise configuration agreeing with `exFc1` on the calcers. -/
def exFc2 : FeatConfig := { calcers := ["age"], extra := [] }

/-- Concrete engine for examples. -/
def exEngine : Engine := { tables := [("campaigns", Source.csv "data/campaigns.csv")] }

/-- Concrete features table for the inference examples: the fourth column is
the single feature column left after dropping the first three. -/
def exInferDF : DF :=
  { cols := ["customer_id", "campaign_id", "target_group_flag", "score"]
    rows := [(0, [some 0, some 0, some 0, some 3]),
             (1, [some 0, some 0, some 0, some (-1)]),
             (2, [some 0, some 0, some 0, some 1]),
             (3, [some 0, some 0, some 0, some 2])] }

/-- Concrete row-wise pipeline prediction for the inference examples: the
value of the first remaining feature column. -/
def exPred : List (Option ℚ) → ℚ := fun vals => (vals.headD none).getD 0

/-- Concrete NDCG scorer for the recommender examples. -/
def exNdcg : List (List Nat) → List (List Nat) → Nat → ℚ :=
  fun t p k => ((t.length + p.length + k : Nat) : ℚ)

/-- Concrete recommender estimator that is a sklearn `Pipeline`. -/
def exRecPipeline : RecEstimator :=
  { is_pipeline := true
    predict := fun X k => X.map (fun r => (List.range k).map (fun i => r.2 + i)) }

/-- Concrete recommender estimator that is not a sklearn `Pipeline`. -/
def exRecOther : RecEstimator :=
  { is_pipeline := false
    predict := fun _ _ => [] }

/-- Concrete interactions array (user id, item id) for the examples. -/
def exX : List (Nat × Nat) := [(2, 10), (1, 20), (2, 30)]

/-- Concrete parquet write primitive for the failure-handling examples. -/
def exTp : Nat → Except Nat Unit := fun _ => Except.ok ()

/-- Concrete fallible prediction returning no rows. -/
def exPe : Unit → DF → Except Nat (List ℚ) := fun _ _ => Except.ok []

/-- Concrete fallible prediction returning a fixed uplift vector. -/
def exPe2 : Unit → DF → Except Nat (List ℚ) := fun _ _ => Except.ok [1, 2]

/-- Concrete fallible submit write. -/
def exTc : List Nat → Except Nat Unit := fun _ => Except.ok ()

/-- Concrete fallible `uplift_at_k` failing exactly at cutoff `1`. -/
def exUak : ℚ → Except Nat ℚ := fun q => if q = 1 then Except.error 3 else Except.ok 0

/-- Concrete fallible `uplift_at_k` that always succeeds. -/
def exUak2 : ℚ → Except Nat ℚ := fun _ => Except.ok 0

/-- C6: `_init` loads tabular data by registering exactly three tables on the
engine: `campaigns` and `customers` read from CSV files and `receipts` read
from a Parquet file, all under the work directory's `data` subdirectory. -/
theorem c6_init_registers_three_tables (workpath : String) :
    (initRun workpath).engine.tables =
      [("campaigns", Source.csv (osPathJoin (osPathJoin workpath "data") "campaigns.csv")),
       ("customers", Source.csv (osPathJoin (osPathJoin workpath "data") "customers.csv")),
       ("receipts", Source.parquet (osPathJoin (osPathJoin workpath "data") "receipts.parquet"))] :=
  rfl

/-- C4: for every estimator that is a `Pipeline` and every interactions array
`X`, `score_wrapper` returns the NDCG score at `k = AT_K` of the estimator's
top-k predictions on `X` against the ground truth obtained by grouping `X`'s
item column into one list per user id. -/
theorem c4_score_wrapper_ndcg
    (ndcg_score : List (List Nat) → List (List Nat) → Nat → ℚ) (at_k : Nat)
    (estimator : RecEstimator) (X : List (Nat × Nat))
    (h : estimator.is_pipeline = true) :
    scoreWrapper ndcg_score at_k estimator X =
      Except.ok (ndcg_score (groupTruth X) (estimator.predict X at_k) at_k) := by
  simp [scoreWrapper, h]

/-- Witness for C4 at a concrete pipeline estimator and interactions array. -/
theorem c4_score_wrapper_ndcg_witness :
    exRecPipeline.is_pipeline = true ∧
    scoreWrapper exNdcg 2 exRecPipeline exX =
      Except.ok (exNdcg (groupTruth exX) (exRecPipeline.predict exX 2) 2) :=
  ⟨rfl, c4_score_wrapper_ndcg exNdcg 2 exRecPipeline exX rfl⟩

/-- C10: for every estimator that is not a sklearn `Pipeline` and every input
`X`, `score_wrapper` raises a `ValueError` carrying that estimator and returns
no score. -/
theorem c10_score_wrapper_value_error
    (ndcg_score : List (List Nat) → List (List Nat) → Nat → ℚ) (at_k : Nat)
    (estimator : RecEstimator) (X : List (Nat × Nat))
    (h : estimator.is_pipeline = false) :
    scoreWrapper ndcg_score at_k estimator X = Except.error estimator := by
  simp [scoreWrapper, h]

/-- Witness for C10 at a concrete non-pipeline estimator. -/
theorem c10_score_wrapper_value_error_witness :
    exRecOther.is_pipeline = false ∧
    scoreWrapper exNdcg 2 exRecOther exX = Except.error exRecOther :=
  ⟨rfl, c10_score_wrapper_value_error exNdcg 2 exRecOther exX rfl⟩

/-- C5: the featurise task's output is exactly `compute_features` applied to
the config's calcer list and the engine, so it depends only on that list and
the registered tables. -/
theorem c5_featurise_depends_only_on_calcers
    (compute_features : List String → Engine → DF) (workpath name : String)
    (c₁ c₂ : FeatConfig) (eng₁ eng₂ : Engine)
    (hcal : c₁.calcers = c₂.calcers) (heng : eng₁ = eng₂) :
    (featurizeRun compute_features workpath name c₁ eng₁).features =
      compute_features c₁.calcers eng₁ ∧
    (featurizeRun compute_features workpath name c₁ eng₁).features =
      (featurizeRun compute_features workpath name c₂ eng₂).features := by
  subst heng
  refine ⟨rfl, ?_⟩
  simp [featurizeRun, hcal]

/-- Witness for C5 at two concrete configs differing outside the calcers. -/
theorem c5_featurise_depends_only_on_calcers_witness :
    exFc1.calcers = exFc2.calcers ∧
    ((featurizeRun exCF "work" "m" exFc1 exEngine).features =
        exCF exFc1.calcers exEngine ∧
      (featurizeRun exCF "work" "m" exFc1 exEngine).features =
        (featurizeRun exCF "work" "m" exFc2 exEngine).features) :=
  ⟨rfl, c5_featurise_depends_only_on_calcers exCF "work" "m" exFc1 exFc2
    exEngine exEngine rfl rfl⟩

/-- C9: the train task always passes the fixed random state `110894` to its
sampling and its train/test split, so its entire result — sampled features,
partition, fitted model, metrics, writes — does not depend on the ambient
entropy: two runs on the same features and config agree. -/
theorem c9_train_deterministic {Stage Model : Type} (P : TrainPrims Stage Model)
    (entropy₁ entropy₂ : Nat) (workpath name : String) (config : TrainConfig)
    (features_dd : DF) :
    trainRun P entropy₁ workpath name config features_dd =
      trainRun P entropy₂ workpath name config features_dd ∧
    Eff.sample 110894 ∈ (trainRun P entropy₁ workpath name config features_dd).effects ∧
    Eff.split 110894 ∈ (trainRun P entropy₁ workpath name config features_dd).effects := by
  refine ⟨rfl, ?_, ?_⟩ <;> simp [trainRun, _random_state]

/-- C2 counterexample: on a concrete run of the train task, the unique persist
event (the pickle write of the fitted pipeline) occurs strictly before the
unique scoring event, so the pipeline is not persisted after being scored. -/
theorem c2_persist_before_score_counterexample :
    (trainRun exPrims 0 "work" "m" exTrainCfg exFeatDF).effects.indexOf
        (Eff.write "work/artifacts/m_pipeline.pkl" Fmt.pickle) <
      (trainRun exPrims 0 "work" "m" exTrainCfg exFeatDF).effects.indexOf Eff.score ∧
    (trainRun exPrims 0 "work" "m" exTrainCfg exFeatDF).effects.count
        (Eff.write "work/artifacts/m_pipeline.pkl" Fmt.pickle) = 1 ∧
    (trainRun exPrims 0 "work" "m" exTrainCfg exFeatDF).effects.count Eff.score = 1 := by
  decide

/-- C2 (amended): the train task performs feature computation (reading and
sampling the features), pipeline assembly, train/test split and fit in the
spec's order, but it persists the fitted pipeline immediately after fitting
and only then scores it, writing the metric tables last. -/
theorem c2_train_step_order {Stage Model : Type} (P : TrainPrims Stage Model)
    (entropy : Nat) (workpath name : String) (config : TrainConfig)
    (features_dd : DF) :
    (trainRun P entropy workpath name config features_dd).effects =
      [Eff.read (osPathJoin (osPathJoin workpath "data") (name ++ "_features.parquet")) Fmt.parquet,
       Eff.sample 110894,
       Eff.assemble,
       Eff.split 110894,
       Eff.fit,
       Eff.write (osPathJoin (osPathJoin workpath "artifacts") (name ++ "_pipeline.pkl")) Fmt.pickle,
       Eff.score,
       Eff.write (osPathJoin (osPathJoin workpath "metrics") (name ++ "_hist.csv")) Fmt.csv,
       Eff.write (osPathJoin (osPathJoin workpath "metrics") (name ++ "_metrics.csv")) Fmt.csv,
       Eff.write (osPathJoin (osPathJoin workpath "metrics") (name ++ "_examples.csv")) Fmt.csv] :=
  rfl

/-- C3 counterexample: on a concrete run, the featurise task's only write is
its features file in Parquet format, not CSV. -/
theorem c3_featurise_writes_parquet_counterexample :
    writesOf (featurizeRun exCF "work" "m" exFc1 exEngine).effects =
      [("work/data/m_features.parquet", Fmt.parquet)] ∧
    Fmt.parquet ≠ Fmt.csv :=
  ⟨rfl, by decide⟩

/-- C3 (amended): the train task writes its three metric tables as CSV (and
its pipeline as a pickle) and the inference task writes its submit file as
CSV, but the featurise task writes its computed features as a Parquet file. -/
theorem c3_write_formats {Stage Model : Type} (P : TrainPrims Stage Model)
    (compute_features : List String → Engine → DF) (pred : List (Option ℚ) → ℚ)
    (entropy : Nat) (workpath name : String) (fc : FeatConfig) (eng : Engine)
    (tc : TrainConfig) (cutoff : ℚ) (features_dd : DF) :
    (writesOf (featurizeRun compute_features workpath name fc eng).effects).map
        (fun p => p.2) = [Fmt.parquet] ∧
    (writesOf (trainRun P entropy workpath name tc features_dd).effects).map
        (fun p => p.2) = [Fmt.pickle, Fmt.csv, Fmt.csv, Fmt.csv] ∧
    (writesOf (inferenceRun pred workpath name cutoff features_dd).effects).map
        (fun p => p.2) = [Fmt.csv] :=
  ⟨rfl, rfl, rfl⟩

/-- Index lookup commutes with `map`. -/
theorem get?_map_eq {α β : Type} (f : α → β) (l : List α) (i : Nat) :
    (l.map f).get? i = (l.get? i).map f := by
  induction l generalizing i with
  | nil => simp
  | cons a t ih => cases i <;> simp [ih]

/-- Index lookup on a `zipWith` of two lists defined at that index. -/
theorem get?_zipWith_eq {α β γ : Type} (f : α → β → γ) (l₁ : List α)
    (l₂ : List β) (i : Nat) (a : α) (b : β)
    (h₁ : l₁.get? i = some a) (h₂ : l₂.get? i = some b) :
    (List.zipWith f l₁ l₂).get? i = some (f a b) := by
  induction l₁ generalizing l₂ i with
  | nil => simp at h₁
  | cons x t ih =>
    cases l₂ with
    | nil => simp at h₂
    | cons y s =>
      cases i with
      | zero => simp_all
      | succ n => simpa using ih s n h₁ h₂

/-- C8: in the train task, the regression target at every sampled row is
`y = 28 * target_purchase_amt - target_discount_sum - target_group_flag` with
a missing value in any of the three columns treated as `0`, the treatment
indicator is `target_group_flag` with missing values treated as `0`, and the
feature matrix consists of all columns from the fourth one on. -/
theorem c8_train_target_and_features (df : DF) (i : Nat)
    (r : Nat × List (Option ℚ)) (h : df.rows.get? i = some r) :
    (trainY df).get? i =
      some (28 * (cellLookup df.cols r.2 "target_purchase_amt").getD 0
            - (cellLookup df.cols r.2 "target_discount_sum").getD 0
            - (cellLookup df.cols r.2 "target_group_flag").getD 0) ∧
    (trainW df).get? i = some ((cellLookup df.cols r.2 "target_group_flag").getD 0) ∧
    (trainX df).cols = df.cols.drop 3 ∧
    (trainX df).rows.get? i = some (r.1, r.2.drop 3) := by
  have hcol : ∀ c : String, (fillna (dfCol df c) 0).get? i =
      some ((cellLookup df.cols r.2 c).getD 0) := by
    intro c
    simp only [fillna, dfCol, get?_map_eq, h, Option.map_some']
  have hpa := hcol "target_purchase_amt"
  have hds := hcol "target_discount_sum"
  have hgf := hcol "target_group_flag"
  refine ⟨?_, ?_, rfl, ?_⟩
  · have h28 : (seriesSmul 28 (fillna (dfCol df "target_purchase_amt") 0)).get? i =
        some (28 * (cellLookup df.cols r.2 "target_purchase_amt").getD 0) := by
      simp only [seriesSmul, get?_map_eq, hpa, Option.map_some']
    have h1 : (seriesSmul 1 (fillna (dfCol df "target_group_flag") 0)).get? i =
        some ((cellLookup df.cols r.2 "target_group_flag").getD 0) := by
      simp only [seriesSmul, get?_map_eq, hgf, Option.map_some', one_mul]
    have hsub := get?_zipWith_eq (fun x y => x - y) _ _ i _ _ h28 hds
    have := get?_zipWith_eq (fun x y => x - y) _ _ i _ _ hsub h1
    simpa only [trainY, seriesSub] using this
  · simpa only [trainW] using hgf
  · simp only [trainX, dfTail3, get?_map_eq, h, Option.map_some']

/-- Witness for C8 at a concrete features table whose first row has a missing
`target_discount_sum`. -/
theorem c8_train_target_and_features_witness :
    exFeatDF.rows.get? 0 = some exRow0 ∧
    ((trainY exFeatDF).get? 0 =
      some (28 * (cellLookup exFeatDF.cols exRow0.2 "target_purchase_amt").getD 0
            - (cellLookup exFeatDF.cols exRow0.2 "target_discount_sum").getD 0
            - (cellLookup exFeatDF.cols exRow0.2 "target_group_flag").getD 0) ∧
    (trainW exFeatDF).get? 0 =
      some ((cellLookup exFeatDF.cols exRow0.2 "target_group_flag").getD 0) ∧
    (trainX exFeatDF).cols = exFeatDF.cols.drop 3 ∧
    (trainX exFeatDF).rows.get? 0 = some (exRow0.1, exRow0.2.drop 3)) :=
  ⟨rfl, c8_train_target_and_features exFeatDF 0 exRow0 rfl⟩

/-- Descending insertion commutes with a key-preserving projection. -/
theorem map_insertDescBy {α β : Type} (f : α → ℚ) (g : β → ℚ) (h : α → β)
    (hk : ∀ a, g (h a) = f a) (a : α) (l : List α) :
    (insertDescBy f a l).map h = insertDescBy g (h a) (l.map h) := by
  induction l with
  | nil => simp [insertDescBy]
  | cons b t ih =>
    by_cases hc : f b < f a
    · simp [insertDescBy, hk, hc]
    · simp [insertDescBy, hk, hc, ih]

/-- Descending insertion sort commutes with a key-preserving projection. -/
theorem map_sortDescBy {α β : Type} (f : α → ℚ) (g : β → ℚ) (h : α → β)
    (hk : ∀ a, g (h a) = f a) (l : List α) :
    (sortDescBy f l).map h = sortDescBy g (l.map h) := by
  induction l with
  | nil => rfl
  | cons a t ih => simp [sortDescBy, map_insertDescBy f g h hk, ih]

/-- Descending insertion adds one element. -/
theorem length_insertDescBy {α : Type} (f : α → ℚ) (a : α) (l : List α) :
    (insertDescBy f a l).length = l.length + 1 := by
  induction l with
  | nil => rfl
  | cons b t ih => by_cases hc : f b < f a <;> simp [insertDescBy, hc, ih]

/-- Descending insertion sort preserves length. -/
theorem length_sortDescBy {α : Type} (f : α → ℚ) (l : List α) :
    (sortDescBy f l).length = l.length := by
  induction l with
  | nil => rfl
  | cons a t ih => simp [sortDescBy, length_insertDescBy, ih]

/-- Filtering a mapped list filters the originals. -/
theorem filterOfMap {α β : Type} (p : β → Bool) (h : α → β) (l : List α) :
    (l.map h).filter p = (l.filter (fun a => p (h a))).map h := by
  induction l with
  | nil => rfl
  | cons a t ih => by_cases hc : p (h a) <;> simp [hc, ih]

/-- Zipping a list with its own image pairs every element with its image. -/
theorem zip_map_self {α β : Type} (f : α → β) (l : List α) :
    l.zip (l.map f) = l.map (fun a => (a, f a)) := by
  induction l with
  | nil => rfl
  | cons a t ih => simp [ih]

/-- For a non-negative rate, the Python slice by `int(N * c)` is a plain
`take` of the floor. -/
theorem pySlice_pyInt_take {α : Type} (l : List α) (N : Nat) (c : ℚ)
    (hc : 0 ≤ c) :
    pySlice l (pyInt ((N : ℚ) * c)) = l.take (Int.toNat ⌊(N : ℚ) * c⌋) := by
  have hq : (0 : ℚ) ≤ (N : ℚ) * c := mul_nonneg (Nat.cast_nonneg N) hc
  rw [pyInt, if_pos hq, pySlice, if_pos (Int.floor_nonneg.mpr hq)]

/-- C1: for every features table, loaded pipeline and non-negative config
cutoff, the inference task's submit content is exactly the claim's ranking:
predict an uplift per row, keep the rows of uplift strictly greater than `0`,
sort them by uplift descending, and take the first `floor(N * cutoff)`
customer indices, `N` being the number of kept rows. -/
theorem c1_inference_cutoff_ranking (pred : List (Option ℚ) → ℚ)
    (workpath name : String) (cutoff : ℚ) (features_dd : DF)
    (h : 0 ≤ cutoff) :
    (inferenceRun pred workpath name cutoff features_dd).submit =
      inferenceClaim pred features_dd cutoff := by
  show cutoffSelect (dfTail3 features_dd).rows
      ((dfTail3 features_dd).rows.map (fun r => pred r.2)) cutoff =
    inferenceClaim pred features_dd cutoff
  simp only [cutoffSelect, inferenceClaim]
  generalize (dfTail3 features_dd).rows = R
  rw [zip_map_self]
  have e2 : R.map (fun r => (r.1, pred r.2)) =
      (R.map (fun r => (r, pred r.2))).map (fun p => (p.1.1, p.2)) := by
    rw [List.map_map]
    rfl
  conv_rhs => rw [e2, filterOfMap]
  conv_rhs => rw [← map_sortDescBy
    (fun p : (Nat × List (Option ℚ)) × ℚ => p.2) (fun p : Nat × ℚ => p.2)
    (fun p : (Nat × List (Option ℚ)) × ℚ => (p.1.1, p.2)) (fun a => rfl),
    List.length_map, List.map_map]
  rw [length_sortDescBy, pySlice_pyInt_take _ _ _ h]
  rfl

/-- Witness for C1 at a concrete features table and cutoff `2/3`: three rows
have positive uplift, and the two top-ranked customer indices are written. -/
theorem c1_inference_cutoff_ranking_witness :
    (0 : ℚ) ≤ 2/3 ∧
    (inferenceRun exPred "work" "m" (2/3) exInferDF).submit =
      inferenceClaim exPred exInferDF (2/3) ∧
    (inferenceRun exPred "work" "m" (2/3) exInferDF).submit = [0, 3] :=
  ⟨by norm_num,
   c1_inference_cutoff_ranking exPred "work" "m" (2/3) exInferDF (by norm_num),
   by
    have h2 : pyInt (((3 : Nat) : ℚ) * (2/3)) = 2 := by
      rw [pyInt, if_pos (by norm_num)]
      norm_num [Int.floor_eq_iff]
    show pySlice [0, 3, 2] (pyInt (((3 : Nat) : ℚ) * (2/3))) = [0, 3]
    rw [h2]
    rfl⟩

/-- Binding a success in `Except` applies the continuation. -/
theorem except_bind_ok {E α β : Type} (a : α) (f : α → Except E β) :
    (Except.ok a >>= f : Except E β) = f a := rfl

/-- Binding an error in `Except` propagates the error unchanged. -/
theorem except_bind_error {E α β : Type} (e : E) (f : α → Except E β) :
    ((Except.error e : Except E α) >>= f : Except E β) = Except.error e := rfl

/-- The metric comprehension propagates the first failing `uplift_at_k` call
unchanged. -/
theorem metricsE_append_error {E : Type} (uak : ℚ → Except E ℚ) (e : E)
    (pre post : List ℚ) (k : ℚ)
    (hpre : ∀ x ∈ pre, ∃ q, uak x = Except.ok q)
    (hk : uak k = Except.error e) :
    metricsE uak (pre ++ k :: post) = Except.error e := by
  induction pre with
  | nil => simp only [List.nil_append, metricsE, hk, except_bind_error]
  | cons a t ih =>
    obtain ⟨q, hq⟩ := hpre a (List.mem_cons_self a t)
    have ht : ∀ x ∈ t, ∃ q, uak x = Except.ok q :=
      fun x hx => hpre x (List.mem_cons_of_mem a hx)
    have hih : metricsE uak (t.append (k :: post)) = Except.error e := ih ht
    simp only [List.cons_append, metricsE, hq, except_bind_ok, hih,
      except_bind_error]

/-- The metric comprehension succeeds, one value per cutoff, when every
`uplift_at_k` call succeeds. -/
theorem metricsE_ok_of_forall {E : Type} (uak : ℚ → Except E ℚ) (ks : List ℚ)
    (h : ∀ x ∈ ks, ∃ q, uak x = Except.ok q) :
    ∃ ms, metricsE uak ks = Except.ok ms ∧ ms.length = ks.length := by
  induction ks with
  | nil => exact ⟨[], rfl, rfl⟩
  | cons a t ih =>
    obtain ⟨q, hq⟩ := h a (List.mem_cons_self a t)
    obtain ⟨ms, hms, hlen⟩ := ih (fun x hx => h x (List.mem_cons_of_mem a hx))
    exact ⟨q :: ms, by simp only [metricsE, hq, except_bind_ok, hms], by
      simp [hlen]⟩

/-- C7: the featurise task, the inference task and train's metric computation
neither catch nor raise exceptions of their own: an error of any underlying
library call propagates unchanged to the task's result, and when every library
call succeeds, the task succeeds, the pure cutoff selection and metric
arithmetic in between raising nothing. -/
theorem c7_error_propagation
    {E DFT M : Type} (e₁ e₂ e₃ : E)
    (cf cf₂ : Except E DFT) (tp : DFT → Except E Unit) (d : DFT)
    (rp rp₂ : Except E DF) (ld ld₂ : Except E M)
    (pe pe₂ : M → DF → Except E (List ℚ)) (tc tc₂ : List Nat → Except E Unit)
    (cutoff : ℚ) (dd : DF) (pm : M) (u : List ℚ)
    (uak uak₂ : ℚ → Except E ℚ) (pre post ks : List ℚ) (k : ℚ)
    (hcf : cf = Except.error e₁)
    (hcf₂ : cf₂ = Except.ok d) (htp : tp d = Except.ok ())
    (hrp : rp = Except.error e₂)
    (hrp₂ : rp₂ = Except.ok dd) (hld : ld₂ = Except.ok pm)
    (hpe : pe₂ pm (dfTail3 dd) = Except.ok u)
    (hpre : ∀ x ∈ pre, ∃ q, uak x = Except.ok q)
    (hk : uak k = Except.error e₃)
    (hks : ∀ x ∈ ks, ∃ q, uak₂ x = Except.ok q) :
    featurizeE cf tp = Except.error e₁ ∧
    featurizeE cf₂ tp = Except.ok () ∧
    inferenceE rp ld pe tc cutoff = Except.error e₂ ∧
    inferenceE rp₂ ld₂ pe₂ tc₂ cutoff =
      tc₂ (cutoffSelect (dfTail3 dd).rows u cutoff) ∧
    metricsE uak (pre ++ k :: post) = Except.error e₃ ∧
    ∃ ms, metricsE uak₂ ks = Except.ok ms ∧ ms.length = ks.length := by
  subst hcf hcf₂ hrp hrp₂ hld
  refine ⟨rfl, ?_, rfl, ?_,
    metricsE_append_error uak e₃ pre post k hpre hk,
    metricsE_ok_of_forall uak₂ ks hks⟩
  · simp only [featurizeE, except_bind_ok, htp]
  · simp only [inferenceE, except_bind_ok, hpe]

/-- Witness for C7 at concrete primitives: a failing and a succeeding
featurise, a failing and a succeeding inference, and a metric loop whose call
fails exactly at cutoff `1`. -/
theorem c7_error_propagation_witness :
    featurizeE (Except.error 1 : Except Nat Nat) exTp = Except.error 1 ∧
    featurizeE (Except.ok 5 : Except Nat Nat) exTp = Except.ok () ∧
    inferenceE (Except.error 2 : Except Nat DF) (Except.ok ()) exPe exTc (1/2) =
      Except.error 2 ∧
    inferenceE (Except.ok exInferDF) (Except.ok ()) exPe2 exTc (1/2) =
      exTc (cutoffSelect (dfTail3 exInferDF).rows [1, 2] (1/2)) ∧
    metricsE exUak ([0] ++ 1 :: [2]) = Except.error 3 ∧
    (∃ ms, metricsE exUak2 [1, 2] = Except.ok ms ∧ ms.length = [1, 2].length) := by
  refine c7_error_propagation 1 2 3 (Except.error 1) (Except.ok 5) exTp 5
    (Except.error 2) (Except.ok exInferDF) (Except.ok ()) (Except.ok ())
    exPe exPe2 exTc exTc (1/2) exInferDF () [1, 2] exUak exUak2 [0] [2] [1, 2] 1
    rfl rfl rfl rfl rfl rfl rfl ?_ rfl ?_
  · intro x hx
    rw [List.mem_singleton] at hx
    subst hx
    exact ⟨0, rfl⟩
  · intro x hx
    exact ⟨0, rfl⟩
